import Mathlib

/-!
Verification of the configuration-to-file-tree generation engine of the
`devdad-generator` repository.  The definitions below are shallow embeddings
of the JavaScript source:

* `validateConfig`     — `src/validator.js`, `validateConfig`
* `generatorFiles`     — the sequence of file paths written by
                         `generateBackend` in `src/generator.js`
* `runMain`            — the validate-then-generate pipeline of
                         `index.js`, `main`
* `templatePaths`      — the zip entries produced by `generateTemplate` in
                         `src/lib/template-generator.js`
* `webBackendFiles`    — the file map produced by `generateWebBackend` in
                         `src/lib/web-generator.js` (artifact bodies are an
                         abstract `render` parameter)
* `sanitizeProjectName` — `src/lib/template-generator.js`, `sanitizeProjectName`
-/

namespace DevGen

/-- A generation request, the shape of the `answers` object collected by
`index.js` and consumed by `validateConfig` / `generateBackend`.  Fields that
may be `undefined` in JavaScript are `Option`s. -/
structure Config where
  projectName : Option String
  framework : Option String
  database : Option String
  features : List String
  emailService : Option String
  includeFrontend : Bool
  frontendFramework : Option String
deriving DecidableEq

/-- Result shape of `validateConfig`: `{ valid, errors }`. -/
structure ValidationResult where
  valid : Bool
  errors : List String
deriving DecidableEq

/-- JavaScript falsiness of an optional string: `undefined` and `""` are
falsy, every other string is truthy. -/
def strFalsy : Option String → Bool
  | none => true
  | some s => s == ""

/-- The test `!config.projectName || !config.projectName.trim()` from
`src/validator.js` line 5: the name is missing when it is `undefined`, empty,
or trims to the empty string — that is, when every character is whitespace
(`all` on `[]` is `true`, covering the empty string). -/
def nameMissing : Option String → Bool
  | none => true
  | some s => s.data.all Char.isWhitespace

/-- The test `!config.emailService || config.emailService === 'none'` from
`src/validator.js` line 27. -/
def emailServiceMissing (o : Option String) : Bool :=
  strFalsy o || o == some "none"

def msgProjectName : String := "Project name is required"

def msgFramework : String := "Framework is required"

def msgDatabase : String := "Database is required"

def msgOtpJwt : String := "OTP verification requires JWT authentication"

def msgPwJwt : String := "Password reset requires JWT authentication"

def msgEmail : String := "Email service is required for OTP and password reset features"

def msgMongo : String := "MongoDB integration currently only supports Express.js"

/-- The text passed to `console.warn` by the SQLite + Redis branch of
`validateConfig` (`src/validator.js` line 33). -/
def warnSqliteRedis : String :=
  "⚠️  Warning: Using Redis with SQLite might be overkill for simple applications"

/-- One call to `validateConfig` with its effect trace: the returned value
and the console lines the call emits. -/
structure ValidatorRun where
  result : ValidationResult
  consoleWarnings : List String
deriving DecidableEq

/-- Shallow embedding of one call to `validateConfig` from
`src/validator.js`.  The seven `errors.push` sites become, in source order,
seven conditional singleton lists.  The SQLite + Redis branch (lines 32-34)
calls `console.warn` and pushes no error; that write effect is embedded as
the `consoleWarnings` trace, which does not feed into the returned value. -/
def validateConfigRun (c : Config) : ValidatorRun :=
  let errors : List String :=
    (if nameMissing c.projectName then [msgProjectName] else [])
    ++ (if strFalsy c.framework then [msgFramework] else [])
    ++ (if strFalsy c.database then [msgDatabase] else [])
    ++ (if c.features.contains "otp" && !(c.features.contains "jwt") then
          [msgOtpJwt] else [])
    ++ (if c.features.contains "passwordReset" && !(c.features.contains "jwt") then
          [msgPwJwt] else [])
    ++ (if (c.features.contains "otp" || c.features.contains "passwordReset")
           && emailServiceMissing c.emailService then
          [msgEmail] else [])
    ++ (if c.framework != some "express" && c.database == some "mongodb" then
          [msgMongo] else [])
  let warnings : List String :=
    if c.database == some "sqlite" && c.features.contains "redis" then
      [warnSqliteRedis] else []
  { result := { valid := errors.isEmpty, errors := errors },
    consoleWarnings := warnings }

/-- The value returned by `validateConfig`: `{ valid, errors }`. -/
def validateConfig (c : Config) : ValidationResult :=
  (validateConfigRun c).result

/-- The sequence of output file paths written by `generateBackend` in
`src/generator.js`, in write order: `generatePackageJson`,
`generateServerFiles`, `generateDatabaseFiles`, `generateAuthFiles`,
`generateUtils`, `generateEnvironmentFile`, the optional frontend, and
`generateReadme`.  Each write produces exactly one file at the listed path. -/
def generatorFiles (c : Config) : List String :=
  ["package.json", "src/server.js", "src/app.js"]
  ++ (if c.database == some "mongodb" then
        ["src/models/User.model.js"]
        ++ (if c.features.contains "jwt" then ["src/models/RefreshToken.model.js"] else [])
      else
        ["prisma/schema.prisma", "src/utils/prisma.js"])
  ++ (if c.features.contains "jwt" then
        ["src/controllers/auth.controller.js", "src/routes/auth.routes.js"]
        ++ (if c.features.contains "otp" || c.features.contains "passwordReset" then
              ["src/services/email.service.js"] else [])
        ++ ["src/middleware/auth.middleware.js"]
      else [])
  ++ (if c.features.contains "validation" then ["src/utils/validation.js"] else [])
  ++ (if c.features.contains "redis" then ["src/utils/redis.js"] else [])
  ++ [".env.example"]
  ++ (if c.includeFrontend && c.frontendFramework != some "none" then
        ["client/package.json"] else [])
  ++ ["README.md"]

/-- Outcome of one CLI run: either the run aborts on validation errors
(`process.exit(1)` in `index.js` before any generation), or the backend is
generated. -/
inductive MainResult where
  | aborted (errors : List String)
  | generated (files : List String)
deriving DecidableEq

/-- The validate-then-generate pipeline of `main` in `index.js` (lines
102-108 and 137): if `validateConfig` reports the configuration invalid the
run aborts with the error list and generation is never attempted. -/
def runMain (c : Config) : MainResult :=
  if (validateConfig c).valid then .generated (generatorFiles c)
  else .aborted (validateConfig c).errors

/-- The configuration shape consumed by `generateTemplate` in
`src/lib/template-generator.js`: `features` is an object with a `docker`
flag, `database` and `frontend` are plain selections. -/
structure TConfig where
  projectName : String
  docker : Bool
  database : Option String
  frontend : Option String
deriving DecidableEq

/-- The zip entry paths produced by `generateTemplate` in
`src/lib/template-generator.js` (lines 184-293), in insertion order.
`zip.folder` merely namespaces subsequent `file` calls, so each `file` call
is one path. -/
def templatePaths (tc : TConfig) : List String :=
  ["README.md", ".gitignore"]
  ++ (if tc.docker then ["Dockerfile", "docker-compose.yml"] else [])
  ++ ["server/package.json", "server/.env.example",
      "server/src/app.js", "server/src/server.js",
      "server/src/routes/auth.routes.js",
      "server/src/controllers/auth.controller.js",
      "server/src/services/auth.services.js"]
  ++ (if tc.database == some "mongodb" then
        ["server/src/models/User.model.js", "server/src/models/RefreshToken.model.js"]
      else if tc.database == some "postgresql" then
        ["server/prisma/schema.prisma", "server/src/utils/prisma.js"]
      else [])
  ++ ["server/src/utils/generateToken.utils.js",
      "server/src/utils/validation.utils.js",
      "server/src/utils/safeRegex.utils.js",
      "server/src/utils/userAuthentication.utils.js",
      "server/src/utils/registrationSession.utils.js",
      "server/src/utils/registrationCleanup.utils.js",
      "server/src/utils/clearRedisCache.utils.js",
      "server/src/lib/redis.lib.js",
      "server/src/lib/sendMail.lib.js",
      "server/src/middleware/auth.middleware.js"]
  ++ (if tc.frontend != some "none" then
      ["client/package.json", "client/.env.example", "client/vite.config.js",
       "client/index.html", "client/tailwind.config.js", "client/postcss.config.js",
       "client/src/App.jsx", "client/src/main.jsx", "client/src/index.css",
       "client/src/components/Login.jsx", "client/src/components/Register.jsx",
       "client/src/components/VerifyEmail.jsx", "client/src/components/Dashboard.jsx",
       "client/src/utils/api.js", "client/src/utils/passwordVisibility.jsx",
       "client/src/utils/passwordValidation.jsx"]
      else [])

/-- The assembled template tree: each path of `templatePaths` paired with
the text its artifact-body generator renders for the configuration.  In the
source every `zip.file(path, generateX(finalConfig))` call renders the body
as a function of the path's generator and the configuration only, which the
abstract `render` lookup captures. -/
def templateFiles (render : String → TConfig → String) (tc : TConfig) :
    List (String × String) :=
  (templatePaths tc).map (fun p => (p, render p tc))

/-- The file map produced by `generateWebBackend` in
`src/lib/web-generator.js` (on the generator-format configuration returned
by `convertConfig`): paths in insertion order, each paired with the text the
artifact-body `render` lookup produces for it. -/
def webBackendFiles (render : String → Config → String) (c : Config) :
    List (String × String) :=
  ([("package.json", render "package.json" c),
    ("src/server.js", render "src/server.js" c),
    ("src/app.js", render "src/app.js" c)]
  ++ (if c.database == some "mongodb" && c.features.contains "jwt" then
        [("src/models/User.model.js", render "src/models/User.model.js" c)] else [])
  ++ (if c.features.contains "jwt" then
        [("src/controllers/auth.controller.js", render "src/controllers/auth.controller.js" c),
         ("src/routes/auth.routes.js", render "src/routes/auth.routes.js" c)] else [])
  ++ [(".env.example", render ".env.example" c),
      ("README.md", render "README.md" c)])

/-- The character class `[a-z0-9-_]` of `sanitizeProjectName`'s first
regex. -/
def allowedChar (c : Char) : Bool :=
  (97 ≤ c.toNat && c.toNat ≤ 122) || (48 ≤ c.toNat && c.toNat ≤ 57)
  || c == '-' || c == '_'

/-- The first replace of `sanitizeProjectName`: every character outside
`[a-z0-9-_]` becomes a hyphen. -/
def replaceBad (l : List Char) : List Char :=
  l.map (fun c => if allowedChar c then c else '-')

/-- Hyphen test used by the edge-stripping regex. -/
def isHy (c : Char) : Bool := c == '-'

/-- The trailing-hyphen half of the second replace of
`sanitizeProjectName`. -/
def dropTrailingHyphens (l : List Char) : List Char :=
  (l.reverse.dropWhile isHy).reverse

/-- The second replace of `sanitizeProjectName`: remove every leading and
trailing hyphen. -/
def stripEdgeHyphens (l : List Char) : List Char :=
  dropTrailingHyphens (l.dropWhile isHy)

/-- The third replace of `sanitizeProjectName` (pattern `--+`, global):
every maximal run of two or more hyphens becomes a single hyphen. -/
def collapseHyphens : List Char → List Char
  | [] => []
  | [c] => [c]
  | c₁ :: c₂ :: rest =>
    if c₁ == '-' && c₂ == '-' then collapseHyphens (c₂ :: rest)
    else c₁ :: collapseHyphens (c₂ :: rest)

/-- Body of `sanitizeProjectName` from `src/lib/template-generator.js`
(lines 13-19), on the character list: lowercase, replace disallowed characters by
hyphens, strip edge hyphens, collapse hyphen runs. -/
def sanitizeChars (l : List Char) : List Char :=
  collapseHyphens (stripEdgeHyphens (replaceBad (l.map Char.toLower)))

/-- Function `sanitizeProjectName` from `src/lib/template-generator.js`. -/
def sanitizeProjectName (s : String) : String :=
  String.mk (sanitizeChars s.data)

/-- The list does not start with a hyphen. -/
def noLeadingHyphen (l : List Char) : Bool :=
  !(l.head? == some '-')

/-- No two adjacent hyphens anywhere in the list. -/
def noDoubleHyphen : List Char → Bool
  | [] => true
  | [_] => true
  | c₁ :: c₂ :: rest => !(c₁ == '-' && c₂ == '-') && noDoubleHyphen (c₂ :: rest)

/-- The output shape claimed for `sanitizeProjectName`: only
`[a-z0-9-_]` characters, no leading or trailing hyphen, no two consecutive
hyphens. -/
def sanitizedShape (l : List Char) : Bool :=
  l.all allowedChar && noLeadingHyphen l && noLeadingHyphen l.reverse
  && noDoubleHyphen l

/-- Modelled from the spec: the identifier pattern
`^[A-Za-z][A-Za-z0-9_-]*$` the spec requires of `projectName` (§3).  This
pattern appears nowhere in the source; it is stated here only to compare the
spec's rule with what `validateConfig` actually checks. -/
def specIdentOk (s : String) : Bool :=
  match s.data with
  | [] => false
  | c :: rest =>
    ((65 ≤ c.toNat && c.toNat ≤ 90) || (97 ≤ c.toNat && c.toNat ≤ 122))
    && rest.all (fun d =>
        (65 ≤ d.toNat && d.toNat ≤ 90) || (97 ≤ d.toNat && d.toNat ≤ 122)
        || (48 ≤ d.toNat && d.toNat ≤ 57) || d == '_' || d == '-')

/-- The framework values offered by the `index.js` prompt. -/
def frameworkEnum : List (Option String) :=
  [some "express", some "fastify", some "koa"]

/-- The database values offered by the `index.js` prompt. -/
def databaseEnum : List (Option String) :=
  [some "mongodb", some "postgresql", some "mysql", some "sqlite"]

/-- The feature tokens offered by the `index.js` prompt. -/
def featureVocab : List String :=
  ["jwt", "otp", "redis", "rateLimit", "passwordReset", "uploads", "docs",
   "logging", "validation", "cors", "helmet"]

/-- The email-service values offered by the `index.js` prompt (`none` when
the question is skipped). -/
def emailEnum : List (Option String) :=
  [some "mailtrap", some "resend", some "nodemailer", some "none", none]

/-- The frontend-framework values offered by the `index.js` prompt (`none`
when the question is skipped). -/
def frontendEnum : List (Option String) :=
  [some "react-vite", some "nextjs", some "vue", some "none", none]

/-- A configuration reachable from the documented enumerations of the
interactive prompt. -/
def reachableConfig (c : Config) : Bool :=
  frameworkEnum.contains c.framework
  && databaseEnum.contains c.database
  && c.features.all (featureVocab.contains ·)
  && emailEnum.contains c.emailService
  && frontendEnum.contains c.frontendFramework

/-- A concrete valid configuration used to instantiate hypotheses of the
proved theorems: Express + MongoDB with JWT and OTP over Mailtrap. -/
def cfgOtp : Config :=
  { projectName := some "acme-api", framework := some "express",
    database := some "mongodb", features := ["jwt", "otp"],
    emailService := some "mailtrap", includeFrontend := false,
    frontendFramework := none }

/-- A configuration selecting OTP and password reset without JWT and with
email service skipped. -/
def cfgOtpNoJwt : Config :=
  { projectName := some "acme-api", framework := some "express",
    database := some "mongodb", features := ["otp", "passwordReset"],
    emailService := none, includeFrontend := false,
    frontendFramework := none }

/-- A configuration selecting the document store with a non-Express
framework. -/
def cfgMongoFastify : Config :=
  { projectName := some "acme-api", framework := some "fastify",
    database := some "mongodb", features := [], emailService := none,
    includeFrontend := false, frontendFramework := none }

/-- A configuration whose project name starts with a digit, so it violates
the spec's identifier pattern while being accepted by the validator. -/
def cfgDigitName : Config :=
  { projectName := some "1abc", framework := some "express",
    database := some "mongodb", features := [], emailService := none,
    includeFrontend := false, frontendFramework := none }

/-- A reachable, valid configuration selecting SQLite together with Redis,
the combination on which the validator emits a console warning. -/
def cfgSqliteRedis : Config :=
  { projectName := some "acme-api", framework := some "express",
    database := some "sqlite", features := ["jwt", "redis"],
    emailService := none, includeFrontend := false,
    frontendFramework := none }

/-- A concrete template configuration for witnesses. -/
def tcfgEx : TConfig :=
  { projectName := "acme-api", docker := true, database := some "mongodb",
    frontend := some "react" }

/-- Membership in a conditional singleton list. -/
theorem mem_ite_singleton {p : Prop} [Decidable p] {a b : String} :
    a ∈ (if p then [b] else []) ↔ p ∧ a = b := by
  split <;> simp_all

/-- Membership in the error list of `validateConfig`, rule by rule. -/
theorem mem_validateConfig_errors (c : Config) (m : String) :
    m ∈ (validateConfig c).errors ↔
      (nameMissing c.projectName = true ∧ m = msgProjectName)
      ∨ (strFalsy c.framework = true ∧ m = msgFramework)
      ∨ (strFalsy c.database = true ∧ m = msgDatabase)
      ∨ ((c.features.contains "otp" && !(c.features.contains "jwt")) = true
          ∧ m = msgOtpJwt)
      ∨ ((c.features.contains "passwordReset" && !(c.features.contains "jwt")) = true
          ∧ m = msgPwJwt)
      ∨ (((c.features.contains "otp" || c.features.contains "passwordReset")
          && emailServiceMissing c.emailService) = true ∧ m = msgEmail)
      ∨ ((c.framework != some "express" && c.database == some "mongodb") = true
          ∧ m = msgMongo) := by
  simp only [validateConfig, validateConfigRun, List.mem_append, mem_ite_singleton]
  tauto

/-- Membership in a conditional list whose negative branch is empty. -/
theorem mem_ite_nil {α : Type} {p : Prop} [Decidable p] {a : α} {l : List α} :
    a ∈ (if p then l else []) ↔ p ∧ a ∈ l := by
  split <;> simp_all

/-- The `valid` flag of `validateConfig` is exactly emptiness of `errors`. -/
theorem validateConfig_valid_iff (c : Config) :
    (validateConfig c).valid = true ↔ (validateConfig c).errors = [] :=
  List.isEmpty_iff

/-- Each rule's message is in the validator's error list exactly when that
rule's condition holds, and `valid` is emptiness of the list.  Shared
workhorse for the validator theorems below. -/
theorem validator_rules_iff :
    ∀ c : Config,
      ((validateConfig c).valid = true ↔ (validateConfig c).errors = [])
      ∧ (msgProjectName ∈ (validateConfig c).errors ↔
          nameMissing c.projectName = true)
      ∧ (msgFramework ∈ (validateConfig c).errors ↔ strFalsy c.framework = true)
      ∧ (msgDatabase ∈ (validateConfig c).errors ↔ strFalsy c.database = true)
      ∧ (msgOtpJwt ∈ (validateConfig c).errors ↔
          (c.features.contains "otp" && !(c.features.contains "jwt")) = true)
      ∧ (msgPwJwt ∈ (validateConfig c).errors ↔
          (c.features.contains "passwordReset" && !(c.features.contains "jwt")) = true)
      ∧ (msgEmail ∈ (validateConfig c).errors ↔
          ((c.features.contains "otp" || c.features.contains "passwordReset")
            && emailServiceMissing c.emailService) = true)
      ∧ (msgMongo ∈ (validateConfig c).errors ↔
          (c.framework != some "express" && c.database == some "mongodb") = true) := by
  intro c
  refine ⟨validateConfig_valid_iff c, ?_, ?_, ?_, ?_, ?_, ?_, ?_⟩ <;>
    rw [mem_validateConfig_errors] <;>
    simp [msgProjectName, msgFramework, msgDatabase, msgOtpJwt, msgPwJwt,
      msgEmail, msgMongo]

/-- C1, counterexample.  The claim that the validator "never performs I/O"
is false of the source: on the reachable configuration selecting SQLite
together with Redis — which even passes validation — the call to
`validateConfig` emits a console warning (`console.warn`,
`src/validator.js` lines 32-34), so its effect trace is nonempty. -/
theorem validator_warns_on_sqlite_redis :
    (validateConfigRun cfgSqliteRedis).consoleWarnings = [warnSqliteRedis]
    ∧ (validateConfigRun cfgSqliteRedis).result.valid = true
    ∧ reachableConfig cfgSqliteRedis = true := by
  refine ⟨?_, ?_, ?_⟩ <;> decide

/-- C1, amended.  `validateConfig` reports the violations of all rules
together: the `valid` flag is emptiness of the violation list and each
rule's message is in the list exactly when that rule's condition holds,
independently of the other rules; it never throws (the embedding is a total
Lean function) and equal inputs give equal results.  Its only effect is a
console warning, emitted exactly on SQLite + Redis configurations and never
feeding into the returned result. -/
theorem validator_reports_all_sole_effect_warn :
    ∀ c : Config,
      ((validateConfig c).valid = true ↔ (validateConfig c).errors = [])
      ∧ (msgProjectName ∈ (validateConfig c).errors ↔
          nameMissing c.projectName = true)
      ∧ (msgFramework ∈ (validateConfig c).errors ↔ strFalsy c.framework = true)
      ∧ (msgDatabase ∈ (validateConfig c).errors ↔ strFalsy c.database = true)
      ∧ (msgOtpJwt ∈ (validateConfig c).errors ↔
          (c.features.contains "otp" && !(c.features.contains "jwt")) = true)
      ∧ (msgPwJwt ∈ (validateConfig c).errors ↔
          (c.features.contains "passwordReset" && !(c.features.contains "jwt")) = true)
      ∧ (msgEmail ∈ (validateConfig c).errors ↔
          ((c.features.contains "otp" || c.features.contains "passwordReset")
            && emailServiceMissing c.emailService) = true)
      ∧ (msgMongo ∈ (validateConfig c).errors ↔
          (c.framework != some "express" && c.database == some "mongodb") = true)
      ∧ ((validateConfigRun c).consoleWarnings =
          if c.database == some "sqlite" && c.features.contains "redis" then
            [warnSqliteRedis] else []) := by
  intro c
  have h := validator_rules_iff c
  exact ⟨h.1, h.2.1, h.2.2.1, h.2.2.2.1, h.2.2.2.2.1, h.2.2.2.2.2.1,
    h.2.2.2.2.2.2.1, h.2.2.2.2.2.2.2, rfl⟩

/-- C2.  Whenever `otp` or `passwordReset` is selected and the email service
is absent or `"none"`, the validator's error list contains the
email-dependency violation; validation then fails, and `main` aborts with
the error list without attempting generation.  Moreover validation succeeds
only when no rule at all is broken (the error list is empty). -/
theorem email_dependency_blocks_generation :
    ∀ c : Config,
      ((c.features.contains "otp" = true ∨ c.features.contains "passwordReset" = true) →
        emailServiceMissing c.emailService = true →
        msgEmail ∈ (validateConfig c).errors
        ∧ (validateConfig c).valid = false
        ∧ runMain c = .aborted (validateConfig c).errors)
      ∧ ((validateConfig c).valid = true → (validateConfig c).errors = []) := by
  intro c
  constructor
  · intro hfeat hmail
    have hcond : ((c.features.contains "otp" || c.features.contains "passwordReset")
        && emailServiceMissing c.emailService) = true := by
      rw [Bool.and_eq_true, Bool.or_eq_true]
      exact ⟨hfeat, hmail⟩
    have hmem : msgEmail ∈ (validateConfig c).errors := by
      rw [mem_validateConfig_errors]
      exact Or.inr (Or.inr (Or.inr (Or.inr (Or.inr (Or.inl ⟨hcond, rfl⟩)))))
    have hne : (validateConfig c).errors ≠ [] := by
      intro h
      rw [h] at hmem
      cases hmem
    have hvalid : (validateConfig c).valid = false := by
      cases hv : (validateConfig c).valid
      · rfl
      · exact absurd ((validateConfig_valid_iff c).mp hv) hne
    refine ⟨hmem, hvalid, ?_⟩
    unfold runMain
    rw [hvalid]
    simp
  · exact (validateConfig_valid_iff c).mp

/-- Witness for `email_dependency_blocks_generation` at a concrete
configuration selecting OTP and password reset while skipping the email
service. -/
theorem email_dependency_blocks_generation_witness :
    msgEmail ∈ (validateConfig cfgOtpNoJwt).errors
    ∧ (validateConfig cfgOtpNoJwt).valid = false
    ∧ runMain cfgOtpNoJwt = .aborted (validateConfig cfgOtpNoJwt).errors :=
  (email_dependency_blocks_generation cfgOtpNoJwt).1 (Or.inl (by decide)) (by decide)

/-- C3.  Selecting `otp` (resp. `passwordReset`) without `jwt` puts the
corresponding authentication-dependency violation in the validator's error
list; when `jwt` is selected, neither authentication-dependency violation is
reported. -/
theorem otp_password_reset_require_jwt :
    ∀ c : Config,
      (c.features.contains "otp" = true → c.features.contains "jwt" = false →
        msgOtpJwt ∈ (validateConfig c).errors)
      ∧ (c.features.contains "passwordReset" = true →
          c.features.contains "jwt" = false →
        msgPwJwt ∈ (validateConfig c).errors)
      ∧ (c.features.contains "jwt" = true →
        msgOtpJwt ∉ (validateConfig c).errors ∧ msgPwJwt ∉ (validateConfig c).errors) := by
  intro c
  have hall := validator_rules_iff c
  refine ⟨?_, ?_, ?_⟩
  · intro hotp hjwt
    exact hall.2.2.2.2.1.mpr (by rw [Bool.and_eq_true, hjwt]; exact ⟨hotp, rfl⟩)
  · intro hpw hjwt
    exact hall.2.2.2.2.2.1.mpr (by rw [Bool.and_eq_true, hjwt]; exact ⟨hpw, rfl⟩)
  · intro hjwt
    constructor
    · intro hmem
      have h := hall.2.2.2.2.1.mp hmem
      rw [Bool.and_eq_true, hjwt] at h
      exact absurd h.2 (by decide)
    · intro hmem
      have h := hall.2.2.2.2.2.1.mp hmem
      rw [Bool.and_eq_true, hjwt] at h
      exact absurd h.2 (by decide)

/-- Witness for `otp_password_reset_require_jwt`: with OTP and password
reset but no JWT both dependency violations appear; with JWT present
(configuration `cfgOtp`) they do not. -/
theorem otp_password_reset_require_jwt_witness :
    msgOtpJwt ∈ (validateConfig cfgOtpNoJwt).errors
    ∧ msgPwJwt ∈ (validateConfig cfgOtpNoJwt).errors
    ∧ msgOtpJwt ∉ (validateConfig cfgOtp).errors :=
  ⟨(otp_password_reset_require_jwt cfgOtpNoJwt).1 (by decide) (by decide),
   (otp_password_reset_require_jwt cfgOtpNoJwt).2.1 (by decide) (by decide),
   ((otp_password_reset_require_jwt cfgOtp).2.2 (by decide)).1⟩

/-- C4.  Selecting the `mongodb` database with any framework other than
`express` (including an absent framework) puts the framework/database
compatibility violation in the validator's error list — the combination is
reported, not silently accepted; with `express` that violation is never
reported. -/
theorem mongodb_requires_express :
    ∀ c : Config,
      (c.database = some "mongodb" → c.framework ≠ some "express" →
        msgMongo ∈ (validateConfig c).errors)
      ∧ (c.framework = some "express" → msgMongo ∉ (validateConfig c).errors) := by
  intro c
  have hall := validator_rules_iff c
  constructor
  · intro hdb hfw
    exact hall.2.2.2.2.2.2.2.mpr (by simp [hdb, hfw])
  · intro hfw hmem
    have := hall.2.2.2.2.2.2.2.mp hmem
    simp [hfw] at this

/-- Witness for `mongodb_requires_express`: MongoDB with Fastify yields the
compatibility violation; MongoDB with Express does not. -/
theorem mongodb_requires_express_witness :
    msgMongo ∈ (validateConfig cfgMongoFastify).errors
    ∧ msgMongo ∉ (validateConfig cfgOtp).errors :=
  ⟨(mongodb_requires_express cfgMongoFastify).1 (by decide) (by decide),
   (mongodb_requires_express cfgOtp).2 (by decide)⟩

/-- C5, counterexample.  The project name `"1abc"` does not match the
spec's identifier pattern `^[A-Za-z][A-Za-z0-9_-]*$` (it starts with a
digit), yet `validateConfig` reports no violation at all for a configuration
carrying it: the validator only checks that the name is present and not
blank, never the identifier pattern. -/
theorem projectName_pattern_not_enforced :
    specIdentOk "1abc" = false ∧ (validateConfig cfgDigitName).errors = [] := by
  constructor
  · decide
  · decide

/-- C5, amended.  The validator reports the project-name violation exactly
when `projectName` is absent, empty, or consists only of whitespace; a
non-blank name is accepted regardless of the identifier pattern. -/
theorem projectName_violation_iff_blank :
    ∀ c : Config,
      msgProjectName ∈ (validateConfig c).errors ↔
        nameMissing c.projectName = true := by
  intro c
  exact (validator_rules_iff c).2.1

/-- Membership in a two-branch conditional list. -/
theorem mem_ite_iff {α : Type} {p : Prop} [Decidable p] {a : α} {l₁ l₂ : List α} :
    a ∈ (if p then l₁ else l₂) ↔ (p ∧ a ∈ l₁) ∨ (¬p ∧ a ∈ l₂) := by
  split <;> simp_all

/-- No two files written by `generateBackend` share a path, for any
configuration whatsoever. -/
theorem generatorFiles_nodup (c : Config) : (generatorFiles c).Nodup := by
  unfold generatorFiles
  split_ifs <;> decide

/-- No two zip entries of `generateTemplate` share a path, for any template
configuration whatsoever. -/
theorem templatePaths_nodup (tc : TConfig) : (templatePaths tc).Nodup := by
  unfold templatePaths
  split_ifs <;> decide

/-- A valid configuration selecting `otp` also selects `jwt` (otherwise the
validator would have reported the OTP dependency violation). -/
theorem valid_otp_jwt (c : Config) (hv : (validateConfig c).valid = true)
    (hotp : c.features.contains "otp" = true) :
    c.features.contains "jwt" = true := by
  by_contra h
  have hjwt : c.features.contains "jwt" = false := by
    cases hc : c.features.contains "jwt"
    · rfl
    · exact absurd hc h
  have hmem := (validator_rules_iff c).2.2.2.2.1.mpr
    (by rw [Bool.and_eq_true, hjwt]; exact ⟨hotp, rfl⟩)
  rw [(validateConfig_valid_iff c).mp hv] at hmem
  cases hmem

/-- C6.  For every valid configuration selecting `otp`, the backend
generation writes the auth controller, auth routes, auth middleware and the
email-sending service, and the email service file is written exactly once —
also when both triggering features (`otp` and `passwordReset`) are selected,
since the write is guarded by a single disjunction. -/
theorem valid_otp_generates_auth_and_email_once :
    ∀ c : Config, (validateConfig c).valid = true →
      c.features.contains "otp" = true →
      "src/controllers/auth.controller.js" ∈ generatorFiles c
      ∧ "src/routes/auth.routes.js" ∈ generatorFiles c
      ∧ "src/middleware/auth.middleware.js" ∈ generatorFiles c
      ∧ "src/services/email.service.js" ∈ generatorFiles c
      ∧ (generatorFiles c).count "src/services/email.service.js" = 1 := by
  intro c hv hotp
  have hjwt : "jwt" ∈ c.features := by simpa using valid_otp_jwt c hv hotp
  have hotp' : "otp" ∈ c.features := by simpa using hotp
  have hmail : "src/services/email.service.js" ∈ generatorFiles c := by
    simp [generatorFiles, hjwt, hotp']
  refine ⟨?_, ?_, ?_, hmail, List.count_eq_one_of_mem (generatorFiles_nodup c) hmail⟩ <;>
    simp [generatorFiles, hjwt, hotp']

/-- Witness for `valid_otp_generates_auth_and_email_once` at the concrete
valid configuration `cfgOtp` (JWT + OTP over Mailtrap). -/
theorem valid_otp_generates_auth_and_email_once_witness :
    "src/controllers/auth.controller.js" ∈ generatorFiles cfgOtp
    ∧ "src/routes/auth.routes.js" ∈ generatorFiles cfgOtp
    ∧ "src/middleware/auth.middleware.js" ∈ generatorFiles cfgOtp
    ∧ "src/services/email.service.js" ∈ generatorFiles cfgOtp
    ∧ (generatorFiles cfgOtp).count "src/services/email.service.js" = 1 :=
  valid_otp_generates_auth_and_email_once cfgOtp (by decide) (by decide)

/-- C7.  For every configuration reachable from the documented enumerations
that passes validation, the paths written by `generateBackend` are pairwise
distinct, and so are the zip entry paths of `generateTemplate`: assembling
the tree never hits a path collision, and each write produces exactly one
file at its listed path. -/
theorem reachable_valid_paths_unique :
    ∀ (c : Config) (tc : TConfig), reachableConfig c = true →
      (validateConfig c).valid = true →
      (generatorFiles c).Nodup ∧ (templatePaths tc).Nodup := by
  intro c tc _ _
  exact ⟨generatorFiles_nodup c, templatePaths_nodup tc⟩

/-- Witness for `reachable_valid_paths_unique` at the concrete reachable
valid configuration `cfgOtp` and template configuration `tcfgEx`. -/
theorem reachable_valid_paths_unique_witness :
    (generatorFiles cfgOtp).Nodup ∧ (templatePaths tcfgEx).Nodup :=
  reachable_valid_paths_unique cfgOtp tcfgEx (by decide) (by decide)

/-- C8.  The resolution-and-assembly pipeline is deterministic: with the
same artifact-body lookup, two runs on equal configurations produce the same
file list — same paths, same order, identical contents — both for the
web-generator pipeline and for the template-generator pipeline.  (The
embedded pipelines are functions of the configuration and the lookup alone;
the source draws on no randomness, clock, or shared state when producing
paths and contents.) -/
theorem generation_pipeline_deterministic :
    ∀ (render : String → Config → String) (renderT : String → TConfig → String)
      (c₁ c₂ : Config) (t₁ t₂ : TConfig), c₁ = c₂ → t₁ = t₂ →
      webBackendFiles render c₁ = webBackendFiles render c₂
      ∧ templateFiles renderT t₁ = templateFiles renderT t₂ := by
  intro render renderT c₁ c₂ t₁ t₂ hc ht
  rw [hc, ht]
  exact ⟨rfl, rfl⟩

/-- Witness for `generation_pipeline_deterministic` at a concrete lookup and
concrete configurations. -/
theorem generation_pipeline_deterministic_witness :
    webBackendFiles (fun p _ => p) cfgOtp = webBackendFiles (fun p _ => p) cfgOtp
    ∧ templateFiles (fun p _ => p) tcfgEx = templateFiles (fun p _ => p) tcfgEx :=
  generation_pipeline_deterministic (fun p _ => p) (fun p _ => p)
    cfgOtp cfgOtp tcfgEx tcfgEx rfl rfl

/-- C10.  Without `jwt` among the features, `generateBackend` writes no
authentication artifact at all — no auth controller, no auth routes, no auth
middleware, and no email service file — even if `otp` or `passwordReset` is
selected, because `generateAuthFiles` returns before writing anything. -/
theorem no_jwt_no_auth_artifacts :
    ∀ c : Config, c.features.contains "jwt" = false →
      "src/controllers/auth.controller.js" ∉ generatorFiles c
      ∧ "src/routes/auth.routes.js" ∉ generatorFiles c
      ∧ "src/middleware/auth.middleware.js" ∉ generatorFiles c
      ∧ "src/services/email.service.js" ∉ generatorFiles c := by
  intro c hjwt
  have hjwt' : "jwt" ∉ c.features := by simpa using hjwt
  refine ⟨?_, ?_, ?_, ?_⟩ <;>
  · intro hmem
    simp [generatorFiles, hjwt', mem_ite_nil, mem_ite_iff] at hmem

/-- Witness for `no_jwt_no_auth_artifacts` at the concrete configuration
`cfgOtpNoJwt`, which selects `otp` and `passwordReset` but not `jwt`. -/
theorem no_jwt_no_auth_artifacts_witness :
    "src/controllers/auth.controller.js" ∉ generatorFiles cfgOtpNoJwt
    ∧ "src/routes/auth.routes.js" ∉ generatorFiles cfgOtpNoJwt
    ∧ "src/middleware/auth.middleware.js" ∉ generatorFiles cfgOtpNoJwt
    ∧ "src/services/email.service.js" ∉ generatorFiles cfgOtpNoJwt :=
  no_jwt_no_auth_artifacts cfgOtpNoJwt (by decide)

/-- Lowercasing fixes every character of the sanitizer's alphabet. -/
theorem allowedChar_toLower {c : Char} (h : allowedChar c = true) :
    Char.toLower c = c := by
  have hn : ¬(c.toNat ≥ 65 ∧ c.toNat ≤ 90) := by
    simp only [allowedChar, Bool.or_eq_true, Bool.and_eq_true, decide_eq_true_eq,
      beq_iff_eq] at h
    rcases h with ((⟨h1, h2⟩ | ⟨h1, h2⟩) | hc) | hc
    · omega
    · omega
    · subst hc; decide
    · subst hc; decide
  show (if c.toNat ≥ 65 ∧ c.toNat ≤ 90 then Char.ofNat (c.toNat + 32) else c) = c
  rw [if_neg hn]

/-- Every character of `replaceBad`'s output is in the sanitizer's
alphabet. -/
theorem replaceBad_allowed {l : List Char} :
    ∀ c ∈ replaceBad l, allowedChar c = true := by
  intro c hc
  simp only [replaceBad, List.mem_map] at hc
  obtain ⟨a, _, rfl⟩ := hc
  by_cases h : allowedChar a = true
  · simp [h]
  · rw [if_neg h]
    decide

/-- `replaceBad` is the identity on lists over the sanitizer's alphabet. -/
theorem replaceBad_eq_self {l : List Char} (h : ∀ c ∈ l, allowedChar c = true) :
    replaceBad l = l := by
  unfold replaceBad
  conv_rhs => rw [← List.map_id l]
  exact List.map_congr_left (fun c hc => by rw [h c hc]; rfl)

/-- Lowercasing is the identity on lists over the sanitizer's alphabet. -/
theorem map_toLower_eq_self {l : List Char} (h : ∀ c ∈ l, allowedChar c = true) :
    l.map Char.toLower = l := by
  conv_rhs => rw [← List.map_id l]
  exact List.map_congr_left (fun c hc => by rw [allowedChar_toLower (h c hc)]; rfl)

/-- Characters survive `stripEdgeHyphens`. -/
theorem mem_stripEdgeHyphens {l : List Char} :
    ∀ c ∈ stripEdgeHyphens l, c ∈ l := by
  intro c hc
  unfold stripEdgeHyphens dropTrailingHyphens at hc
  rw [List.mem_reverse] at hc
  have h1 := (List.dropWhile_sublist (l := (l.dropWhile isHy).reverse) isHy).mem hc
  rw [List.mem_reverse] at h1
  exact (List.dropWhile_sublist (l := l) isHy).mem h1

/-- Characters survive `collapseHyphens`. -/
theorem mem_collapseHyphens :
    ∀ (l : List Char), ∀ c ∈ collapseHyphens l, c ∈ l
  | [] => by simp [collapseHyphens]
  | [a] => by simp [collapseHyphens]
  | a :: b :: rest => by
    intro c hc
    simp only [collapseHyphens] at hc
    split at hc
    · exact List.mem_cons_of_mem a (mem_collapseHyphens (b :: rest) c hc)
    · rcases List.mem_cons.mp hc with rfl | h
      · exact List.mem_cons_self _ _
      · exact List.mem_cons_of_mem a (mem_collapseHyphens (b :: rest) c h)

/-- `collapseHyphens` sends the empty list only to the empty list. -/
theorem collapseHyphens_ne_nil :
    ∀ (l : List Char), l ≠ [] → collapseHyphens l ≠ []
  | [] => fun h => absurd rfl h
  | [a] => fun _ => by simp [collapseHyphens]
  | a :: b :: rest => fun _ => by
    simp only [collapseHyphens]
    split
    · exact collapseHyphens_ne_nil (b :: rest) (by simp)
    · simp

/-- `collapseHyphens` keeps the head. -/
theorem head?_collapseHyphens :
    ∀ (l : List Char), (collapseHyphens l).head? = l.head?
  | [] => rfl
  | [a] => rfl
  | a :: b :: rest => by
    simp only [collapseHyphens]
    split
    · next hab =>
      rw [head?_collapseHyphens (b :: rest)]
      simp only [Bool.and_eq_true, beq_iff_eq] at hab
      rw [hab.1, hab.2]
      simp
    · rfl

/-- `collapseHyphens` keeps the last element. -/
theorem getLast?_collapseHyphens :
    ∀ (l : List Char), (collapseHyphens l).getLast? = l.getLast?
  | [] => rfl
  | [a] => rfl
  | a :: b :: rest => by
    simp only [collapseHyphens]
    split
    · rw [getLast?_collapseHyphens (b :: rest), List.getLast?_cons_cons]
    · obtain ⟨x, xs, hX⟩ :=
        List.exists_cons_of_ne_nil (collapseHyphens_ne_nil (b :: rest) (by simp))
      rw [hX, List.getLast?_cons_cons, ← hX, getLast?_collapseHyphens (b :: rest),
        List.getLast?_cons_cons]

/-- The output of `collapseHyphens` has no two adjacent hyphens. -/
theorem noDoubleHyphen_collapseHyphens :
    ∀ (l : List Char), noDoubleHyphen (collapseHyphens l) = true
  | [] => rfl
  | [a] => rfl
  | a :: b :: rest => by
    simp only [collapseHyphens]
    split
    · exact noDoubleHyphen_collapseHyphens (b :: rest)
    · next hab =>
      cases hX : collapseHyphens (b :: rest) with
      | nil => rfl
      | cons x xs =>
        have hx : x = b := by
          have h := head?_collapseHyphens (b :: rest)
          rw [hX] at h
          simpa using h
        have ht := noDoubleHyphen_collapseHyphens (b :: rest)
        rw [hX] at ht
        have hf : (a == '-' && b == '-') = false := by
          cases hv : (a == '-' && b == '-')
          · rfl
          · exact absurd hv hab
        simp only [noDoubleHyphen, Bool.and_eq_true]
        exact ⟨by rw [hx, hf]; rfl, ht⟩

/-- `collapseHyphens` is the identity on lists without adjacent hyphens. -/
theorem collapseHyphens_eq_self :
    ∀ (l : List Char), noDoubleHyphen l = true → collapseHyphens l = l
  | [] => fun _ => rfl
  | [a] => fun _ => rfl
  | a :: b :: rest => fun h => by
    simp only [noDoubleHyphen, Bool.and_eq_true] at h
    have hx : (a == '-' && b == '-') = false := by
      have h1 := h.1
      cases hv : (a == '-' && b == '-')
      · rfl
      · rw [hv] at h1; exact absurd h1 (by decide)
    simp only [collapseHyphens]
    rw [if_neg (by rw [hx]; decide)]
    rw [collapseHyphens_eq_self (b :: rest) h.2]

/-- After dropping leading hyphens nothing starts with a hyphen. -/
theorem noLeadingHyphen_dropWhile (l : List Char) :
    noLeadingHyphen (l.dropWhile isHy) = true := by
  have h := List.head?_dropWhile_not isHy l
  unfold noLeadingHyphen
  cases hd : (l.dropWhile isHy).head? with
  | none => rfl
  | some c =>
    rw [hd] at h
    simp only at h
    simp only [isHy, beq_eq_false_iff_ne, ne_eq] at h
    simp [h]

/-- `dropTrailingHyphens` removes a suffix: the result followed by some tail
is the original list. -/
theorem dropTrailingHyphens_append (l : List Char) :
    ∃ t, dropTrailingHyphens l ++ t = l := by
  obtain ⟨t, ht⟩ := List.dropWhile_suffix (l := l.reverse) isHy
  refine ⟨t.reverse, ?_⟩
  unfold dropTrailingHyphens
  have : (t ++ l.reverse.dropWhile isHy).reverse = l := by rw [ht, List.reverse_reverse]
  rw [List.reverse_append] at this
  exact this

/-- `dropTrailingHyphens` never introduces a leading hyphen. -/
theorem noLeadingHyphen_dropTrailingHyphens {l : List Char}
    (h : noLeadingHyphen l = true) :
    noLeadingHyphen (dropTrailingHyphens l) = true := by
  obtain ⟨t, ht⟩ := dropTrailingHyphens_append l
  cases hd : dropTrailingHyphens l with
  | nil => rfl
  | cons c cs =>
    rw [hd] at ht
    unfold noLeadingHyphen at h ⊢
    rw [← ht] at h
    simpa using h

/-- `stripEdgeHyphens` leaves no leading hyphen. -/
theorem noLeadingHyphen_stripEdgeHyphens (l : List Char) :
    noLeadingHyphen (stripEdgeHyphens l) = true :=
  noLeadingHyphen_dropTrailingHyphens (noLeadingHyphen_dropWhile l)

/-- `stripEdgeHyphens` leaves no trailing hyphen. -/
theorem noTrailingHyphen_stripEdgeHyphens (l : List Char) :
    noLeadingHyphen (stripEdgeHyphens l).reverse = true := by
  unfold stripEdgeHyphens dropTrailingHyphens
  rw [List.reverse_reverse]
  exact noLeadingHyphen_dropWhile (l.dropWhile isHy).reverse

/-- Dropping leading hyphens is the identity when there are none. -/
theorem dropWhile_isHy_eq_self {l : List Char} (h : noLeadingHyphen l = true) :
    l.dropWhile isHy = l := by
  cases l with
  | nil => rfl
  | cons c cs =>
    unfold noLeadingHyphen at h
    simp only [List.head?_cons] at h
    rw [List.dropWhile_cons, if_neg]
    simp only [isHy]
    simpa using h

/-- `stripEdgeHyphens` is the identity on lists with clean edges. -/
theorem stripEdgeHyphens_eq_self {l : List Char} (h1 : noLeadingHyphen l = true)
    (h2 : noLeadingHyphen l.reverse = true) :
    stripEdgeHyphens l = l := by
  unfold stripEdgeHyphens dropTrailingHyphens
  rw [dropWhile_isHy_eq_self h1, dropWhile_isHy_eq_self h2, List.reverse_reverse]

/-- The output of the full sanitizer pipeline has the claimed shape: only
alphabet characters, clean edges, and no adjacent hyphens. -/
theorem sanitizedShape_sanitizeChars (l : List Char) :
    sanitizedShape (sanitizeChars l) = true := by
  unfold sanitizedShape
  have hall : (sanitizeChars l).all allowedChar = true := by
    rw [List.all_eq_true]
    intro c hc
    have h1 := mem_collapseHyphens _ c hc
    have h2 := mem_stripEdgeHyphens c h1
    exact replaceBad_allowed c h2
  have hlead : noLeadingHyphen (sanitizeChars l) = true := by
    unfold noLeadingHyphen sanitizeChars
    rw [head?_collapseHyphens]
    have h := noLeadingHyphen_stripEdgeHyphens (replaceBad (l.map Char.toLower))
    unfold noLeadingHyphen at h
    exact h
  have htrail : noLeadingHyphen (sanitizeChars l).reverse = true := by
    unfold noLeadingHyphen sanitizeChars
    rw [List.head?_reverse, getLast?_collapseHyphens, ← List.head?_reverse]
    have h := noTrailingHyphen_stripEdgeHyphens (replaceBad (l.map Char.toLower))
    unfold noLeadingHyphen at h
    exact h
  have hdouble : noDoubleHyphen (sanitizeChars l) = true :=
    noDoubleHyphen_collapseHyphens _
  rw [hall, hlead, htrail, hdouble]
  rfl

/-- The sanitizer pipeline is the identity on already-sanitized lists. -/
theorem sanitizeChars_eq_self {l : List Char} (h : sanitizedShape l = true) :
    sanitizeChars l = l := by
  unfold sanitizedShape at h
  simp only [Bool.and_eq_true] at h
  obtain ⟨⟨⟨hall, hlead⟩, htrail⟩, hdouble⟩ := h
  rw [List.all_eq_true] at hall
  unfold sanitizeChars
  rw [map_toLower_eq_self hall, replaceBad_eq_self hall,
    stripEdgeHyphens_eq_self hlead htrail, collapseHyphens_eq_self _ hdouble]

/-- C9.  `sanitizeProjectName` is idempotent, and for every input its output
contains only lowercase letters, digits, underscores and hyphens, has no
leading or trailing hyphen, and no two consecutive hyphens. -/
theorem sanitizeProjectName_idempotent_and_shaped :
    ∀ s : String,
      sanitizeProjectName (sanitizeProjectName s) = sanitizeProjectName s
      ∧ sanitizedShape (sanitizeProjectName s).data = true := by
  intro s
  have hshape : sanitizedShape (sanitizeChars s.data) = true :=
    sanitizedShape_sanitizeChars s.data
  constructor
  · show String.mk (sanitizeChars (sanitizeChars s.data)) = String.mk (sanitizeChars s.data)
    rw [sanitizeChars_eq_self hshape]
  · exact hshape

end DevGen
